import Mathlib

/-!
Shallow embedding of airflow/providers/google/cloud/operators/kubernetes_engine.py:
the GKE cluster lifecycle operators (GKEDeleteClusterOperator,
GKECreateClusterOperator) and the pod-execution bridge (GKEStartPodOperator).

Modelling conventions:
- The remote control plane (GKEHook methods create_cluster / delete_cluster /
  get_operation / get_cluster) is a record of functions supplied by the
  environment; every call an operator makes to it is recorded in a trace
  (List CPCall) returned alongside the result.
- Python exceptions raised by an operator method become Except.error carrying
  the message; BaseOperator.defer raises TaskDeferred, so a deferral ends the
  method (modelled by the deferredOp outcome: no code after defer runs).
- Python truthiness of the tested values is modelled explicitly: a missing or
  empty string is falsy, a missing or zero initial_node_count is falsy.
- warnings.warn calls (deprecation alerts) never fail and are not modelled.
-/

namespace GKE

/-- Python truthiness of an optional string value: None and the empty string
are falsy, every other string is truthy. -/
def truthyStr (s : Option String) : Bool :=
  match s with
  | none => false
  | some v => !v.isEmpty

/-- Whether an Except value is a success. -/
def exOk {ε α : Type} (r : Except ε α) : Bool :=
  match r with
  | Except.ok _ => true
  | Except.error _ => false

/-- An operation handle returned by the control plane on submission
(google.cloud.container Operation: the fields the operators read). -/
structure OperationHandle where
  name : String
  self_link : String
  target_link : String
  deriving DecidableEq, Repr

/-- cluster.private_cluster_config as read by fetch_cluster_info. -/
structure PrivateClusterConfig where
  private_endpoint : String
  deriving DecidableEq, Repr

/-- cluster.master_auth as read by fetch_cluster_info. -/
structure MasterAuth where
  cluster_ca_certificate : String
  deriving DecidableEq, Repr

/-- A cluster record returned by get_cluster: the fields the operators read. -/
structure Cluster where
  name : String
  self_link : String
  endpoint : String
  private_cluster_config : PrivateClusterConfig
  master_auth : MasterAuth
  deriving DecidableEq, Repr

/-- The cluster-create request body (a dict or Cluster proto in the source;
body_field reads a field from either representation uniformly, and
validate_input only tests Python truthiness of the fields other than name).
We record the name and initial_node_count values (empty string / zero are
exactly the falsy values) and the truthiness of node_config and node_pools. -/
structure ClusterBody where
  name : String
  initial_node_count : Nat
  node_config : Bool
  node_pools : Bool
  deriving DecidableEq, Repr

/-- The result of GKEHook.create_cluster: either an operation handle, or the
AlreadyExists exception raised by the control plane. -/
inductive CreateResult where
  | ok (operation : OperationHandle)
  | alreadyExists (message : String)
  deriving DecidableEq, Repr

/-- One call made to the control plane, with the arguments passed. -/
inductive CPCall where
  | create_cluster (body : ClusterBody) (project_id : Option String) (wait_to_complete : Bool)
  | delete_cluster (name : String) (project_id : Option String) (wait_to_complete : Bool)
  | get_operation (operation_name : String)
  | get_cluster (name : String) (project_id : Option String)
  deriving DecidableEq, Repr

/-- The control plane (GKEHook) as the operators consume it: a behaviour for
each remote call. delete_cluster may return no operation (the hook treats a
missing cluster as already deleted). -/
structure ControlPlane where
  create_cluster : ClusterBody → Option String → Bool → CreateResult
  delete_cluster : String → Option String → Bool → Option OperationHandle
  get_operation : String → OperationHandle
  get_cluster : String → Option String → Cluster

/-- The serializable trigger registered on deferral of a cluster operation
(GKEOperationTrigger constructor arguments). -/
structure GKEOperationTrigger where
  operation_name : String
  project_id : Option String
  location : String
  gcp_conn_id : String
  impersonation_chain : Option String
  poll_interval : Nat
  deriving DecidableEq, Repr

/-- Outcome of one execute call of a cluster operator: a returned link, or a
deferral (self.defer raises TaskDeferred, so nothing runs after it). -/
inductive ExecuteOutcome where
  | returned (link : Option String)
  | deferredOp (trigger : GKEOperationTrigger) (method_name : String)
  deriving DecidableEq, Repr

/-- Whether an execute outcome registered a trigger and suspended. -/
def ExecuteOutcome.isDeferred : ExecuteOutcome → Bool
  | ExecuteOutcome.deferredOp _ _ => true
  | ExecuteOutcome.returned _ => false

/-- A completion event delivered to an execute_complete resume entrypoint. -/
structure CompletionEvent where
  status : String
  message : String
  operation_name : String
  deriving DecidableEq, Repr

/-- GKEDeleteClusterOperator state after construction. -/
structure GKEDeleteClusterOperator where
  name : String
  location : String
  project_id : Option String
  gcp_conn_id : String
  api_version : String
  impersonation_chain : Option String
  deferrable : Bool
  poll_interval : Nat
  deriving DecidableEq, Repr

/-- check_input of GKEDeleteClusterOperator: raises unless all of
project_id, name, location are truthy. -/
def GKEDeleteClusterOperator.check_input (project_id : Option String)
    (name location : String) : Except String Unit :=
  if truthyStr project_id && !name.isEmpty && !location.isEmpty then
    Except.ok ()
  else
    Except.error "Operator has incorrect or missing input."

/-- Constructor of GKEDeleteClusterOperator: stores the arguments and runs
check_input before returning; no control plane is in scope here, so no
remote call can happen during construction. -/
def GKEDeleteClusterOperator.init (name location : String) (project_id : Option String)
    (gcp_conn_id api_version : String) (impersonation_chain : Option String)
    (deferrable : Bool) (poll_interval : Nat) :
    Except String GKEDeleteClusterOperator :=
  match GKEDeleteClusterOperator.check_input project_id name location with
  | Except.error e => Except.error e
  | Except.ok _ =>
      Except.ok { name, location, project_id, gcp_conn_id, api_version,
                  impersonation_chain, deferrable, poll_interval }

/-- execute of GKEDeleteClusterOperator: submit the delete with
wait_to_complete the negation of deferrable; in deferrable mode, when an
operation was returned, register a GKEOperationTrigger and suspend;
otherwise return the operation self_link (or None when no operation). -/
def GKEDeleteClusterOperator.execute (op : GKEDeleteClusterOperator)
    (cp : ControlPlane) : ExecuteOutcome × List CPCall :=
  let wait_to_complete := !op.deferrable
  let operation := cp.delete_cluster op.name op.project_id wait_to_complete
  let trace := [CPCall.delete_cluster op.name op.project_id wait_to_complete]
  match operation with
  | some oper =>
      if op.deferrable then
        (ExecuteOutcome.deferredOp
          { operation_name := oper.name, project_id := op.project_id,
            location := op.location, gcp_conn_id := op.gcp_conn_id,
            impersonation_chain := op.impersonation_chain,
            poll_interval := op.poll_interval }
          "execute_complete", trace)
      else
        (ExecuteOutcome.returned (some oper.self_link), trace)
  | none => (ExecuteOutcome.returned none, trace)

/-- execute_complete of GKEDeleteClusterOperator: a failed or error status
raises the event message verbatim; otherwise fetch the final operation
record by the event operation name and return its self_link. -/
def GKEDeleteClusterOperator.execute_complete (op : GKEDeleteClusterOperator)
    (cp : ControlPlane) (event : CompletionEvent) :
    Except String String × List CPCall :=
  if event.status = "failed" ∨ event.status = "error" then
    (Except.error event.message, [])
  else
    let operation := cp.get_operation event.operation_name
    (Except.ok operation.self_link, [CPCall.get_operation event.operation_name])

/-- GKECreateClusterOperator state after construction. -/
structure GKECreateClusterOperator where
  location : String
  body : ClusterBody
  project_id : Option String
  gcp_conn_id : String
  api_version : String
  impersonation_chain : Option String
  poll_interval : Nat
  deferrable : Bool
  deriving DecidableEq, Repr

/-- validate_input of GKECreateClusterOperator (the deprecation alerts only
warn and never fail, so they are not modelled): collect the error messages in
source order and raise when any exist. -/
def GKECreateClusterOperator.validate_input (body : ClusterBody) :
    Except String Unit :=
  let error_messages : List String :=
    (if body.name.isEmpty then
      ["Field body[name] is missing or incorrect"] else []) ++
    (if body.initial_node_count != 0 && body.node_pools then
      ["Do not use filed body[initial_node_count] and body[node_pools] at the same time."]
     else []) ++
    (if body.node_config && body.node_pools then
      ["Do not use filed body[node_config] and body[node_pools] at the same time."]
     else []) ++
    (if body.node_pools && (body.node_config || body.initial_node_count != 0) then
      ["The field body[node_pools] should not be set if body[node_config] or body[initial_code_count] are specified."]
     else []) ++
    (if !(body.node_config || body.initial_node_count != 0) && !body.node_pools then
      ["Field body[node_pools] is required if none of fields body[initial_node_count] or body[node_pools] are specified."]
     else [])
  if error_messages.isEmpty then Except.ok ()
  else Except.error "Operator has incorrect or missing input."

/-- Constructor of GKECreateClusterOperator: stores the arguments and runs
validate_input before returning; no control plane is in scope here, so no
remote call can happen during construction or validation. -/
def GKECreateClusterOperator.init (location : String) (body : ClusterBody)
    (project_id : Option String) (gcp_conn_id api_version : String)
    (impersonation_chain : Option String) (poll_interval : Nat)
    (deferrable : Bool) : Except String GKECreateClusterOperator :=
  match GKECreateClusterOperator.validate_input body with
  | Except.error e => Except.error e
  | Except.ok _ =>
      Except.ok { location, body, project_id, gcp_conn_id, api_version,
                  impersonation_chain, poll_interval, deferrable }

/-- execute of GKECreateClusterOperator: submit the create with
wait_to_complete the negation of deferrable; on AlreadyExists, treat as
success, fetch the existing cluster by the name from the body and return its
self_link; otherwise, in deferrable mode register a GKEOperationTrigger and
suspend, in synchronous mode return the operation target_link. -/
def GKECreateClusterOperator.execute (op : GKECreateClusterOperator)
    (cp : ControlPlane) : ExecuteOutcome × List CPCall :=
  let wait_to_complete := !op.deferrable
  match cp.create_cluster op.body op.project_id wait_to_complete with
  | CreateResult.alreadyExists _ =>
      let name := op.body.name
      let cluster := cp.get_cluster name op.project_id
      (ExecuteOutcome.returned (some cluster.self_link),
       [CPCall.create_cluster op.body op.project_id wait_to_complete,
        CPCall.get_cluster name op.project_id])
  | CreateResult.ok operation =>
      if op.deferrable then
        (ExecuteOutcome.deferredOp
          { operation_name := operation.name, project_id := op.project_id,
            location := op.location, gcp_conn_id := op.gcp_conn_id,
            impersonation_chain := op.impersonation_chain,
            poll_interval := op.poll_interval }
          "execute_complete",
         [CPCall.create_cluster op.body op.project_id wait_to_complete])
      else
        (ExecuteOutcome.returned (some operation.target_link),
         [CPCall.create_cluster op.body op.project_id wait_to_complete])

/-- execute_complete of GKECreateClusterOperator: a failed or error status
raises the event message verbatim; otherwise fetch the final operation
record by the event operation name and return its target_link. -/
def GKECreateClusterOperator.execute_complete (op : GKECreateClusterOperator)
    (cp : ControlPlane) (event : CompletionEvent) :
    Except String String × List CPCall :=
  if event.status = "failed" ∨ event.status = "error" then
    (Except.error event.message, [])
  else
    let operation := cp.get_operation event.operation_name
    (Except.ok operation.target_link, [CPCall.get_operation event.operation_name])

/-- One cluster-create invocation from raw arguments: construct the operator
(running validation) and, only when construction succeeds, run execute
against the control plane. The second component is the full trace of control
plane calls made. -/
def createCluster (location : String) (body : ClusterBody)
    (project_id : Option String) (gcp_conn_id api_version : String)
    (impersonation_chain : Option String) (poll_interval : Nat)
    (deferrable : Bool) (cp : ControlPlane) :
    Except String ExecuteOutcome × List CPCall :=
  match GKECreateClusterOperator.init location body project_id gcp_conn_id
      api_version impersonation_chain poll_interval deferrable with
  | Except.error e => (Except.error e, [])
  | Except.ok op =>
      let r := op.execute cp
      (Except.ok r.1, r.2)

/-- What to do with the pod when it reaches a final state (the OnFinishAction
enum of the cncf kubernetes provider, values per the operator docstring:
keep_pod, delete_pod, delete_succeeded_pod). -/
inductive OnFinishAction where
  | keep_pod
  | delete_pod
  | delete_succeeded_pod
  deriving DecidableEq, Repr

/-- OnFinishAction(value) on a string: the enum lookup raises ValueError for
any string that is not one of the member values. -/
def OnFinishAction.ofString (s : String) : Option OnFinishAction :=
  if s = "keep_pod" then some OnFinishAction.keep_pod
  else if s = "delete_pod" then some OnFinishAction.delete_pod
  else if s = "delete_succeeded_pod" then some OnFinishAction.delete_succeeded_pod
  else none

/-- The metadata of a created pod that invoke_defer_method reads. -/
structure PodMeta where
  name : String
  pod_namespace : String
  deriving DecidableEq, Repr

/-- The kwargs that GKEStartPodOperator passes on to the
KubernetesPodOperator constructor and later reads back from self (only the
ones this module reads; defaults are those of KubernetesPodOperator). -/
structure KubernetesPodOperatorArgs where
  config_file : Option String := none
  get_logs : Bool := true
  startup_timeout_seconds : Nat := 120
  cluster_context : Option String := none
  poll_interval : Nat := 2
  in_cluster : Option Bool := none
  base_container_name : String := "base"
  deriving DecidableEq, Repr

/-- The pod-connection hook (GKEPodHook) built from explicit connection
values: a plain record, no control plane in scope. -/
structure GKEPodHook where
  gcp_conn_id : String
  cluster_url : String
  ssl_ca_cert : String
  impersonation_chain : Option String
  deriving DecidableEq, Repr

/-- GKEStartPodOperator state: its own constructor arguments, the canonical
on_finish_action resolved at construction, the fields inherited from
KubernetesPodOperator that this module reads, and the mutable connection
state (pod, cluster_url, ssl_ca_cert) that starts unset. -/
structure GKEStartPodOperator where
  location : String
  cluster_name : String
  use_internal_ip : Bool
  project_id : Option String
  gcp_conn_id : String
  impersonation_chain : Option String
  on_finish_action : OnFinishAction
  config_file : Option String
  get_logs : Bool
  startup_timeout_seconds : Nat
  cluster_context : Option String
  poll_interval : Nat
  in_cluster : Option Bool
  base_container_name : String
  pod : Option PodMeta
  cluster_url : Option String
  ssl_ca_cert : Option String
  deriving DecidableEq, Repr

/-- The on_finish_action resolution block at the top of the
GKEStartPodOperator constructor: when the deprecated is_delete_operator_pod
alias is not None it wins (a deprecation warning is emitted) and the
on_finish_action argument is ignored; when it is None, a given
on_finish_action string is parsed by the OnFinishAction enum (ValueError on
an unknown value), and neither given defaults to keep_pod (with a warning). -/
def resolve_on_finish_action (is_delete_operator_pod : Option Bool)
    ( on_finish_action : Option String) : Except String OnFinishAction :=
  match is_delete_operator_pod with
  | some b =>
      Except.ok (if b then OnFinishAction.delete_pod else OnFinishAction.keep_pod)
  | none =>
      match on_finish_action with
      | some s =>
          match OnFinishAction.ofString s with
          | some a => Except.ok a
          | none => Except.error ("ValueError: " ++ s ++ " is not a valid OnFinishAction")
      | none => Except.ok OnFinishAction.keep_pod

/-- Constructor of GKEStartPodOperator (continued): after resolving the
canonical on_finish_action, the regional argument only warns; the
KubernetesPodOperator constructor stores the kwargs; then raise if
gcp_conn_id is None; then raise if the stored config_file is truthy. No
control plane is in scope, so construction makes no remote call. -/
def GKEStartPodOperator.init (location cluster_name : String)
    (use_internal_ip : Bool) (project_id : Option String)
    (gcp_conn_id : Option String) (impersonation_chain : Option String)
    (regional : Option Bool) ( on_finish_action : Option String)
    (is_delete_operator_pod : Option Bool)
    (kwargs : KubernetesPodOperatorArgs) : Except String GKEStartPodOperator :=
  let _ := regional
  match resolve_on_finish_action is_delete_operator_pod on_finish_action with
  | Except.error e => Except.error e
  | Except.ok a =>
      match gcp_conn_id with
      | none => Except.error "The gcp_conn_id parameter has become required."
      | some conn =>
          if truthyStr kwargs.config_file then
            Except.error "config_file is not an allowed parameter for the GKEStartPodOperator."
          else
            Except.ok { location, cluster_name, use_internal_ip, project_id,
                        gcp_conn_id := conn, impersonation_chain,
                        on_finish_action := a,
                        config_file := kwargs.config_file,
                        get_logs := kwargs.get_logs,
                        startup_timeout_seconds := kwargs.startup_timeout_seconds,
                        cluster_context := kwargs.cluster_context,
                        poll_interval := kwargs.poll_interval,
                        in_cluster := kwargs.in_cluster,
                        base_container_name := kwargs.base_container_name,
                        pod := none, cluster_url := none, ssl_ca_cert := none }

/-- The canonical on_finish_action a successful construction resolved, None
when construction failed. -/
def resolvedAction (r : Except String GKEStartPodOperator) :
    Option OnFinishAction :=
  match r with
  | Except.ok op => some op.on_finish_action
  | Except.error _ => none

/-- The hook property of GKEStartPodOperator: raises when cluster_url or
ssl_ca_cert is unset, otherwise builds a GKEPodHook from them. -/
def GKEStartPodOperator.hook (op : GKEStartPodOperator) :
    Except String GKEPodHook :=
  match op.cluster_url, op.ssl_ca_cert with
  | some url, some cert =>
      Except.ok { gcp_conn_id := op.gcp_conn_id, cluster_url := url,
                  ssl_ca_cert := cert,
                  impersonation_chain := op.impersonation_chain }
  | _, _ =>
      Except.error "Cluster url and ssl_ca_cert should be defined before using self.hook method. Try to use self.get_kube_creds method"

/-- fetch_cluster_info: one get_cluster call; with use_internal_ip the
cluster url is built from the private endpoint field, otherwise from the
public endpoint; the CA certificate comes from master_auth; both are stored
on the operator and returned. -/
def GKEStartPodOperator.fetch_cluster_info (op : GKEStartPodOperator)
    (cp : ControlPlane) :
    (GKEStartPodOperator × (String × Option String)) × List CPCall :=
  let cluster := cp.get_cluster op.cluster_name op.project_id
  let url :=
    if !op.use_internal_ip then "https://" ++ cluster.endpoint
    else "https://" ++ cluster.private_cluster_config.private_endpoint
  let op2 := { op with cluster_url := some url,
                       ssl_ca_cert := some cluster.master_auth.cluster_ca_certificate }
  ((op2, (url, some cluster.master_auth.cluster_ca_certificate)),
   [CPCall.get_cluster op.cluster_name op.project_id])

/-- execute of GKEStartPodOperator: fetch the cluster info first, then
delegate pod creation and monitoring to KubernetesPodOperator.execute
(outside this module; it reaches the cluster only through self.hook, so it
makes no further control plane call). The returned state is the one the
delegation runs with. -/
def GKEStartPodOperator.execute (op : GKEStartPodOperator)
    (cp : ControlPlane) : GKEStartPodOperator × List CPCall :=
  let r := op.fetch_cluster_info cp
  (r.1.1, r.2)

/-- The deferral record registered by invoke_defer_method: the serializable
GKEStartPodTrigger arguments it carries that this module later reads, the
resume entrypoint name, and the explicit resume kwargs. -/
structure DeferRecord where
  pod_name : String
  pod_namespace : String
  trigger_start_time : Nat
  trigger_cluster_url : Option String
  trigger_ssl_ca_cert : Option String
  trigger_get_logs : Bool
  trigger_on_finish_action : OnFinishAction
  method_name : String
  kwargs_cluster_url : Option String
  kwargs_ssl_ca_cert : Option String
  deriving DecidableEq, Repr

/-- invoke_defer_method: reads self.pod.metadata (None pod would raise), then
registers a GKEStartPodTrigger built from the current connection state, with
resume entrypoint execute_complete and the kwargs dict holding cluster_url
and ssl_ca_cert as plain values. -/
def GKEStartPodOperator.invoke_defer_method (op : GKEStartPodOperator)
    (trigger_start_time : Nat) : Option DeferRecord :=
  match op.pod with
  | none => none
  | some p =>
      some { pod_name := p.name, pod_namespace := p.pod_namespace,
             trigger_start_time,
             trigger_cluster_url := op.cluster_url,
             trigger_ssl_ca_cert := op.ssl_ca_cert,
             trigger_get_logs := op.get_logs,
             trigger_on_finish_action := op.on_finish_action,
             method_name := "execute_complete",
             kwargs_cluster_url := op.cluster_url,
             kwargs_ssl_ca_cert := op.ssl_ca_cert }

/-- Modelled from the spec: the generic pod-execution core resumption
(KubernetesPodOperator.execute_complete, outside this repository slice).
Per the spec, after resume a fresh PodExecutionSession is rebuilt from the
restored connection values alone, without re-querying the control plane: it
uses self.hook and makes no control plane call. -/
def rebuild_pod_session (op : GKEStartPodOperator) :
    Except String GKEPodHook × List CPCall :=
  (op.hook, [])

/-- execute_complete of GKEStartPodOperator: restore cluster_url and
ssl_ca_cert from the resume kwargs, then delegate to the generic pod
execution core (rebuild_pod_session). Returns the restored state and the
control plane calls made from resume onwards. -/
def GKEStartPodOperator.execute_complete (op : GKEStartPodOperator)
    (kwargs_cluster_url kwargs_ssl_ca_cert : Option String) :
    GKEStartPodOperator × List CPCall :=
  let op2 := { op with cluster_url := kwargs_cluster_url,
                       ssl_ca_cert := kwargs_ssl_ca_cert }
  (op2, (rebuild_pod_session op2).2)

/-- validate_input succeeds exactly when the name is truthy and exactly one
of the two node groups is set: either node_pools alone, or the legacy group
(node_config or a nonzero initial_node_count) without node_pools. -/
theorem validate_input_isOk (body : ClusterBody) :
    exOk (GKECreateClusterOperator.validate_input body) =
      (!body.name.isEmpty &&
        ((body.node_pools && !body.node_config && (body.initial_node_count == 0)) ||
         (!body.node_pools && (body.node_config || body.initial_node_count != 0)))) := by
  cases h1 : body.name.isEmpty <;>
    cases h2 : body.node_config <;>
    cases h3 : body.node_pools <;>
    cases h4 : body.initial_node_count == 0 <;>
    simp_all [GKECreateClusterOperator.validate_input, exOk]

/-- validate_input returns either success or the fixed AirflowException
message (the individual field messages are only logged). -/
theorem validate_input_cases (body : ClusterBody) :
    GKECreateClusterOperator.validate_input body = Except.ok () ∨
    GKECreateClusterOperator.validate_input body =
      Except.error "Operator has incorrect or missing input." := by
  cases h1 : body.name.isEmpty <;> cases h2 : body.node_config <;>
    cases h3 : body.node_pools <;> cases h4 : body.initial_node_count == 0 <;>
    simp_all [GKECreateClusterOperator.validate_input, bne]

/-- A failing validation carries the fixed message. -/
theorem validate_input_error (body : ClusterBody)
    (h : exOk (GKECreateClusterOperator.validate_input body) = false) :
    GKECreateClusterOperator.validate_input body =
      Except.error "Operator has incorrect or missing input." := by
  rcases validate_input_cases body with hc | hc
  · rw [hc] at h; simp [exOk] at h
  · exact hc

/-- When validation fails, the whole create invocation fails with an empty
control plane trace. -/
theorem createCluster_invalid (location : String) (body : ClusterBody)
    (project_id : Option String) (gcp_conn_id api_version : String)
    (impersonation_chain : Option String) (poll_interval : Nat)
    (deferrable : Bool) (cp : ControlPlane)
    (h : GKECreateClusterOperator.validate_input body =
      Except.error "Operator has incorrect or missing input.") :
    createCluster location body project_id gcp_conn_id api_version
      impersonation_chain poll_interval deferrable cp =
      (Except.error "Operator has incorrect or missing input.", []) := by
  unfold createCluster GKECreateClusterOperator.init
  rw [h]

/-- A concrete control plane used by the witnesses. -/
def sampleCP : ControlPlane where
  create_cluster := fun _ _ _ =>
    CreateResult.ok { name := "op-create", self_link := "sl-create",
                      target_link := "tl-create" }
  delete_cluster := fun _ _ _ =>
    some { name := "op-delete", self_link := "sl-delete",
           target_link := "tl-delete" }
  get_operation := fun n =>
    { name := n, self_link := "sl-op", target_link := "tl-op" }
  get_cluster := fun n _ =>
    { name := n, self_link := "sl-cluster", endpoint := "1.2.3.4",
      private_cluster_config := { private_endpoint := "10.0.0.2" },
      master_auth := { cluster_ca_certificate := "CERT" } }

/-- A control plane whose create_cluster raises AlreadyExists. -/
def sampleCPExists : ControlPlane :=
  { sampleCP with create_cluster := fun _ _ _ =>
      CreateResult.alreadyExists "already exists" }

/-- A concrete synchronous create operator used by the witnesses. -/
def sampleCreateOp : GKECreateClusterOperator :=
  { location := "loc",
    body := { name := "c", initial_node_count := 1, node_config := false,
              node_pools := false },
    project_id := some "p", gcp_conn_id := "gcp", api_version := "v2",
    impersonation_chain := none, poll_interval := 10, deferrable := false }

/-- A concrete synchronous delete operator used by the witnesses. -/
def sampleDeleteOp : GKEDeleteClusterOperator :=
  { name := "c", location := "loc", project_id := some "p",
    gcp_conn_id := "gcp", api_version := "v2", impersonation_chain := none,
    deferrable := false, poll_interval := 10 }

/-- The deferrable variants of the sample operators. -/
def sampleCreateOpD : GKECreateClusterOperator :=
  { sampleCreateOp with deferrable := true }

def sampleDeleteOpD : GKEDeleteClusterOperator :=
  { sampleDeleteOp with deferrable := true }

/-- Claim C1: createCluster accepts a request body only when exactly one of
the node groups is set: either node_pools alone, or the legacy group
(node_config or a nonzero initial_node_count) without node_pools, never
both; and for a body with both node_pools and initial_node_count set, or
node_pools and node_config, or neither group set, it fails with the
validation error before any control plane call is made (empty trace). -/
theorem create_validates_exactly_one_node_group
    (location : String) (body : ClusterBody) (project_id : Option String)
    (gcp_conn_id api_version : String) (impersonation_chain : Option String)
    (poll_interval : Nat) (deferrable : Bool) (cp : ControlPlane) :
    (exOk (GKECreateClusterOperator.validate_input body) = true →
      (!body.name.isEmpty) = true ∧
      ((body.node_pools && !body.node_config && (body.initial_node_count == 0)) ||
       (!body.node_pools && (body.node_config || body.initial_node_count != 0))) = true) ∧
    (body.node_pools = true → body.initial_node_count ≠ 0 →
      createCluster location body project_id gcp_conn_id api_version
        impersonation_chain poll_interval deferrable cp =
        (Except.error "Operator has incorrect or missing input.", [])) ∧
    (body.node_pools = true → body.node_config = true →
      createCluster location body project_id gcp_conn_id api_version
        impersonation_chain poll_interval deferrable cp =
        (Except.error "Operator has incorrect or missing input.", [])) ∧
    (body.node_pools = false → body.node_config = false →
      body.initial_node_count = 0 →
      createCluster location body project_id gcp_conn_id api_version
        impersonation_chain poll_interval deferrable cp =
        (Except.error "Operator has incorrect or missing input.", [])) := by
  refine ⟨?_, ?_, ?_, ?_⟩
  · intro h
    rw [validate_input_isOk] at h
    simp only [Bool.and_eq_true] at h
    exact ⟨h.1, h.2⟩
  · intro hnp hinc
    refine createCluster_invalid _ _ _ _ _ _ _ _ _ (validate_input_error _ ?_)
    rw [validate_input_isOk]
    simp [hnp, hinc]
  · intro hnp hnc
    refine createCluster_invalid _ _ _ _ _ _ _ _ _ (validate_input_error _ ?_)
    rw [validate_input_isOk]
    simp [hnp, hnc]
  · intro hnp hnc hinc
    refine createCluster_invalid _ _ _ _ _ _ _ _ _ (validate_input_error _ ?_)
    rw [validate_input_isOk]
    simp [hnp, hnc, hinc]

/-- Witness for C1: a body with both node_pools and initial_node_count, one
with node_pools and node_config, and one with neither group are each
rejected with no control plane call, and an accepted body has exactly one
group set. -/
theorem create_validates_exactly_one_node_group_w :
    createCluster "loc"
      { name := "c", initial_node_count := 1, node_config := false,
        node_pools := true } none "gcp" "v2" none 10 false sampleCP =
      (Except.error "Operator has incorrect or missing input.", []) ∧
    createCluster "loc"
      { name := "c", initial_node_count := 0, node_config := true,
        node_pools := true } none "gcp" "v2" none 10 false sampleCP =
      (Except.error "Operator has incorrect or missing input.", []) ∧
    createCluster "loc"
      { name := "c", initial_node_count := 0, node_config := false,
        node_pools := false } none "gcp" "v2" none 10 false sampleCP =
      (Except.error "Operator has incorrect or missing input.", []) ∧
    ((!({ name := "c", initial_node_count := 1, node_config := false,
          node_pools := false } : ClusterBody).name.isEmpty) = true ∧
     ((({ name := "c", initial_node_count := 1, node_config := false,
          node_pools := false } : ClusterBody).node_pools &&
       !({ name := "c", initial_node_count := 1, node_config := false,
           node_pools := false } : ClusterBody).node_config &&
       (({ name := "c", initial_node_count := 1, node_config := false,
           node_pools := false } : ClusterBody).initial_node_count == 0)) ||
      (!({ name := "c", initial_node_count := 1, node_config := false,
           node_pools := false } : ClusterBody).node_pools &&
       (({ name := "c", initial_node_count := 1, node_config := false,
           node_pools := false } : ClusterBody).node_config ||
        ({ name := "c", initial_node_count := 1, node_config := false,
           node_pools := false } : ClusterBody).initial_node_count != 0))) = true) :=
  ⟨(create_validates_exactly_one_node_group "loc"
      { name := "c", initial_node_count := 1, node_config := false,
        node_pools := true } none "gcp" "v2" none 10 false sampleCP).2.1
      rfl (by decide),
   (create_validates_exactly_one_node_group "loc"
      { name := "c", initial_node_count := 0, node_config := true,
        node_pools := true } none "gcp" "v2" none 10 false sampleCP).2.2.1
      rfl rfl,
   (create_validates_exactly_one_node_group "loc"
      { name := "c", initial_node_count := 0, node_config := false,
        node_pools := false } none "gcp" "v2" none 10 false sampleCP).2.2.2
      rfl rfl rfl,
   (create_validates_exactly_one_node_group "loc"
      { name := "c", initial_node_count := 1, node_config := false,
        node_pools := false } none "gcp" "v2" none 10 false sampleCP).1
      (by decide)⟩

/-- Claim C2: when the control plane raises AlreadyExists on the create
submission, execute does not raise: it fetches the existing cluster by the
name from the request body, returns that cluster link, and registers no
trigger. -/
theorem create_already_exists_is_success (op : GKECreateClusterOperator)
    (cp : ControlPlane) (msg : String)
    (h : cp.create_cluster op.body op.project_id (!op.deferrable) =
      CreateResult.alreadyExists msg) :
    op.execute cp =
      (ExecuteOutcome.returned
        (some (cp.get_cluster op.body.name op.project_id).self_link),
       [CPCall.create_cluster op.body op.project_id (!op.deferrable),
        CPCall.get_cluster op.body.name op.project_id]) ∧
    (op.execute cp).1.isDeferred = false := by
  constructor <;>
    simp [GKECreateClusterOperator.execute, h, ExecuteOutcome.isDeferred]

/-- Witness for C2 at a concrete operator and control plane. -/
theorem create_already_exists_is_success_w :
    sampleCreateOp.execute sampleCPExists =
      (ExecuteOutcome.returned (some "sl-cluster"),
       [CPCall.create_cluster sampleCreateOp.body (some "p") true,
        CPCall.get_cluster "c" (some "p")]) ∧
    (sampleCreateOp.execute sampleCPExists).1.isDeferred = false := by
  have h := create_already_exists_is_success sampleCreateOp sampleCPExists
    "already exists" rfl
  simpa [sampleCPExists, sampleCP, sampleCreateOp] using h

/-- Claim C3: the resume entrypoints of both cluster operators raise the
event message verbatim on a failed or error status, and otherwise fetch the
final operation by the event operation name and return its link (target_link
for create, self_link for delete). -/
theorem execute_complete_event_handling
    (copr : GKECreateClusterOperator) (dopr : GKEDeleteClusterOperator)
    (cp : ControlPlane) (event : CompletionEvent) :
    (event.status = "failed" ∨ event.status = "error" →
      copr.execute_complete cp event = (Except.error event.message, []) ∧
      dopr.execute_complete cp event = (Except.error event.message, [])) ∧
    (¬(event.status = "failed" ∨ event.status = "error") →
      copr.execute_complete cp event =
        (Except.ok (cp.get_operation event.operation_name).target_link,
         [CPCall.get_operation event.operation_name]) ∧
      dopr.execute_complete cp event =
        (Except.ok (cp.get_operation event.operation_name).self_link,
         [CPCall.get_operation event.operation_name])) := by
  constructor <;> intro h <;>
    constructor <;>
      simp [GKECreateClusterOperator.execute_complete,
            GKEDeleteClusterOperator.execute_complete, h]

/-- Witness for C3: a failed event with message quota exceeded raises it
verbatim; a success event returns the fetched operation link. -/
theorem execute_complete_event_handling_w :
    sampleCreateOp.execute_complete sampleCP
      { status := "failed", message := "quota exceeded",
        operation_name := "op1" } =
      (Except.error "quota exceeded", []) ∧
    sampleDeleteOp.execute_complete sampleCP
      { status := "success", message := "done", operation_name := "op1" } =
      (Except.ok "sl-op", [CPCall.get_operation "op1"]) := by
  constructor
  · exact ((execute_complete_event_handling sampleCreateOp sampleDeleteOp
      sampleCP { status := "failed", message := "quota exceeded",
                 operation_name := "op1" }).1 (Or.inl rfl)).1
  · have h := ((execute_complete_event_handling sampleCreateOp sampleDeleteOp
      sampleCP { status := "success", message := "done",
                 operation_name := "op1" }).2 (by decide)).2
    simpa [sampleCP] using h

/-- Claim C4: a synchronous invocation submits with wait_to_complete true
and never registers a trigger; a deferrable invocation submits with
wait_to_complete false and, when the submission returned an operation,
suspends immediately after the submission: the outcome is the registered
trigger and the whole trace is the single submit call (no get_operation
poll by the operator before suspension). -/
theorem submission_mode_wait_flag_and_deferral
    (copr : GKECreateClusterOperator) (dopr : GKEDeleteClusterOperator)
    (cp : ControlPlane) (oper doper : OperationHandle) :
    (copr.deferrable = false →
      (copr.execute cp).2.head? =
        some (CPCall.create_cluster copr.body copr.project_id true) ∧
      (copr.execute cp).1.isDeferred = false) ∧
    (dopr.deferrable = false →
      (dopr.execute cp).2 =
        [CPCall.delete_cluster dopr.name dopr.project_id true] ∧
      (dopr.execute cp).1.isDeferred = false) ∧
    (copr.deferrable = true →
      cp.create_cluster copr.body copr.project_id false =
        CreateResult.ok oper →
      copr.execute cp =
        (ExecuteOutcome.deferredOp
          { operation_name := oper.name, project_id := copr.project_id,
            location := copr.location, gcp_conn_id := copr.gcp_conn_id,
            impersonation_chain := copr.impersonation_chain,
            poll_interval := copr.poll_interval } "execute_complete",
         [CPCall.create_cluster copr.body copr.project_id false])) ∧
    (dopr.deferrable = true →
      cp.delete_cluster dopr.name dopr.project_id false = some doper →
      dopr.execute cp =
        (ExecuteOutcome.deferredOp
          { operation_name := doper.name, project_id := dopr.project_id,
            location := dopr.location, gcp_conn_id := dopr.gcp_conn_id,
            impersonation_chain := dopr.impersonation_chain,
            poll_interval := dopr.poll_interval } "execute_complete",
         [CPCall.delete_cluster dopr.name dopr.project_id false])) := by
  refine ⟨?_, ?_, ?_, ?_⟩
  · intro h
    cases hc : cp.create_cluster copr.body copr.project_id (!copr.deferrable) <;>
      constructor <;>
        simp_all [GKECreateClusterOperator.execute, ExecuteOutcome.isDeferred]
  · intro h
    cases hd : cp.delete_cluster dopr.name dopr.project_id (!dopr.deferrable) <;>
      constructor <;>
        simp_all [GKEDeleteClusterOperator.execute, ExecuteOutcome.isDeferred]
  · intro h hc
    simp_all [GKECreateClusterOperator.execute]
  · intro h hd
    simp_all [GKEDeleteClusterOperator.execute]

/-- Witness for C4: the synchronous sample operators submit with wait true
and do not defer; the deferrable sample operators submit with wait false
and suspend with the registered trigger right after the submission. -/
theorem submission_mode_wait_flag_and_deferral_w :
    (sampleCreateOp.execute sampleCP).2.head? =
      some (CPCall.create_cluster sampleCreateOp.body (some "p") true) ∧
    (sampleCreateOp.execute sampleCP).1.isDeferred = false ∧
    (sampleDeleteOp.execute sampleCP).2 =
      [CPCall.delete_cluster "c" (some "p") true] ∧
    (sampleDeleteOp.execute sampleCP).1.isDeferred = false ∧
    sampleCreateOpD.execute sampleCP =
      (ExecuteOutcome.deferredOp
        { operation_name := "op-create", project_id := some "p",
          location := "loc", gcp_conn_id := "gcp",
          impersonation_chain := none, poll_interval := 10 }
        "execute_complete",
       [CPCall.create_cluster sampleCreateOpD.body (some "p") false]) ∧
    sampleDeleteOpD.execute sampleCP =
      (ExecuteOutcome.deferredOp
        { operation_name := "op-delete", project_id := some "p",
          location := "loc", gcp_conn_id := "gcp",
          impersonation_chain := none, poll_interval := 10 }
        "execute_complete",
       [CPCall.delete_cluster "c" (some "p") false]) := by
  have h := submission_mode_wait_flag_and_deferral sampleCreateOp
    sampleDeleteOp sampleCP
    { name := "op-create", self_link := "sl-create", target_link := "tl-create" }
    { name := "op-delete", self_link := "sl-delete", target_link := "tl-delete" }
  have hD := submission_mode_wait_flag_and_deferral sampleCreateOpD
    sampleDeleteOpD sampleCP
    { name := "op-create", self_link := "sl-create", target_link := "tl-create" }
    { name := "op-delete", self_link := "sl-delete", target_link := "tl-delete" }
  refine ⟨(h.1 rfl).1, (h.1 rfl).2, ?_, (h.2.1 rfl).2, ?_, ?_⟩
  · have hs := (h.2.1 rfl).1
    simpa [sampleDeleteOp] using hs
  · have hc := hD.2.2.1 rfl rfl
    simpa [sampleCreateOpD, sampleCreateOp] using hc
  · have hd := hD.2.2.2 rfl rfl
    simpa [sampleDeleteOpD, sampleDeleteOp] using hd

/-- A concrete pod-execution bridge state used by the witnesses. -/
def samplePodOp : GKEStartPodOperator :=
  { location := "loc", cluster_name := "c", use_internal_ip := false,
    project_id := some "p", gcp_conn_id := "gcp",
    impersonation_chain := none,
    on_finish_action := OnFinishAction.keep_pod, config_file := none,
    get_logs := true, startup_timeout_seconds := 120,
    cluster_context := none, poll_interval := 2, in_cluster := none,
    base_container_name := "base", pod := none, cluster_url := none,
    ssl_ca_cert := none }

/-- The sample bridge with the internal-ip flag set. -/
def samplePodOpInternal : GKEStartPodOperator :=
  { samplePodOp with use_internal_ip := true }

/-- The sample bridge after its cluster info was fetched and its pod
created, as invoke_defer_method sees it. -/
def samplePodOpFetched : GKEStartPodOperator :=
  { samplePodOp with pod := some { name := "pod", pod_namespace := "ns" },
                     cluster_url := some "https://1.2.3.4",
                     ssl_ca_cert := some "CERT" }

/-- Claim C5: fetch_cluster_info makes one get_cluster call and builds the
cluster url from the private endpoint field exactly when use_internal_ip is
true and from the public endpoint exactly when it is false, returning the
CA certificate of the cluster alongside in both cases. -/
theorem fetch_cluster_info_endpoint_selection (op : GKEStartPodOperator)
    (cp : ControlPlane) :
    (op.use_internal_ip = true →
      (op.fetch_cluster_info cp).1.2 =
        ("https://" ++ (cp.get_cluster op.cluster_name op.project_id).private_cluster_config.private_endpoint,
         some (cp.get_cluster op.cluster_name op.project_id).master_auth.cluster_ca_certificate)) ∧
    (op.use_internal_ip = false →
      (op.fetch_cluster_info cp).1.2 =
        ("https://" ++ (cp.get_cluster op.cluster_name op.project_id).endpoint,
         some (cp.get_cluster op.cluster_name op.project_id).master_auth.cluster_ca_certificate)) ∧
    (op.fetch_cluster_info cp).2 =
      [CPCall.get_cluster op.cluster_name op.project_id] := by
  refine ⟨?_, ?_, rfl⟩ <;> intro h <;>
    simp [GKEStartPodOperator.fetch_cluster_info, h]

/-- Witness for C5: with the internal-ip flag the url comes from the private
endpoint of the fetched cluster. -/
theorem fetch_cluster_info_endpoint_selection_w :
    (samplePodOpInternal.fetch_cluster_info sampleCP).1.2 =
      ("https://10.0.0.2", some "CERT") ∧
    (samplePodOp.fetch_cluster_info sampleCP).1.2 =
      ("https://1.2.3.4", some "CERT") := by
  constructor
  · have h := (fetch_cluster_info_endpoint_selection samplePodOpInternal
      sampleCP).1 rfl
    simpa [sampleCP, samplePodOpInternal, samplePodOp] using h
  · have h := (fetch_cluster_info_endpoint_selection samplePodOp
      sampleCP).2.1 rfl
    simpa [sampleCP, samplePodOp] using h

/-- Claim C6: the deferral record registered by invoke_defer_method carries
the cluster url and the CA certificate both in the serializable trigger and
in the explicit resume kwargs; on resume, execute_complete restores both
fields from those kwargs before delegating, and the delegation rebuilds the
session with no control plane call (empty trace: in particular no
get_cluster). -/
theorem defer_kwargs_roundtrip_no_refetch (op op2 : GKEStartPodOperator)
    (p : PodMeta) (t : Nat) (h : op.pod = some p) :
    ∃ rec, op.invoke_defer_method t = some rec ∧
      rec.method_name = "execute_complete" ∧
      rec.kwargs_cluster_url = op.cluster_url ∧
      rec.kwargs_ssl_ca_cert = op.ssl_ca_cert ∧
      rec.trigger_cluster_url = op.cluster_url ∧
      rec.trigger_ssl_ca_cert = op.ssl_ca_cert ∧
      (op2.execute_complete rec.kwargs_cluster_url rec.kwargs_ssl_ca_cert).1.cluster_url = op.cluster_url ∧
      (op2.execute_complete rec.kwargs_cluster_url rec.kwargs_ssl_ca_cert).1.ssl_ca_cert = op.ssl_ca_cert ∧
      (op2.execute_complete rec.kwargs_cluster_url rec.kwargs_ssl_ca_cert).2 = [] := by
  refine ⟨{ pod_name := p.name, pod_namespace := p.pod_namespace,
            trigger_start_time := t, trigger_cluster_url := op.cluster_url,
            trigger_ssl_ca_cert := op.ssl_ca_cert,
            trigger_get_logs := op.get_logs,
            trigger_on_finish_action := op.on_finish_action,
            method_name := "execute_complete",
            kwargs_cluster_url := op.cluster_url,
            kwargs_ssl_ca_cert := op.ssl_ca_cert },
          ?_, rfl, rfl, rfl, rfl, rfl, rfl, rfl, rfl⟩
  simp [GKEStartPodOperator.invoke_defer_method, h]

/-- Witness for C6 at a concrete fetched state resuming onto a fresh
instance. -/
theorem defer_kwargs_roundtrip_no_refetch_w :
    ∃ rec, samplePodOpFetched.invoke_defer_method 0 = some rec ∧
      rec.method_name = "execute_complete" ∧
      rec.kwargs_cluster_url = samplePodOpFetched.cluster_url ∧
      rec.kwargs_ssl_ca_cert = samplePodOpFetched.ssl_ca_cert ∧
      rec.trigger_cluster_url = samplePodOpFetched.cluster_url ∧
      rec.trigger_ssl_ca_cert = samplePodOpFetched.ssl_ca_cert ∧
      (samplePodOp.execute_complete rec.kwargs_cluster_url rec.kwargs_ssl_ca_cert).1.cluster_url = samplePodOpFetched.cluster_url ∧
      (samplePodOp.execute_complete rec.kwargs_cluster_url rec.kwargs_ssl_ca_cert).1.ssl_ca_cert = samplePodOpFetched.ssl_ca_cert ∧
      (samplePodOp.execute_complete rec.kwargs_cluster_url rec.kwargs_ssl_ca_cert).2 = [] :=
  defer_kwargs_roundtrip_no_refetch samplePodOpFetched samplePodOp
    { name := "pod", pod_namespace := "ns" } 0 rfl

/-- Claim C7: supplying the legacy config_file parameter (a truthy
kube-config path) makes construction of the bridge fail, and with the other
parameters well formed the failure is exactly the config_file error; no
control plane is in scope during construction, so no remote call happens. -/
theorem config_file_forbidden_at_construction (location cluster_name : String)
    (use_internal_ip : Bool) (project_id : Option String)
    (gcp_conn_id : Option String) (impersonation_chain : Option String)
    (regional : Option Bool) ( on_finish_action : Option String)
    (is_delete_operator_pod : Option Bool)
    (kwargs : KubernetesPodOperatorArgs)
    (hcf : truthyStr kwargs.config_file = true) :
    (∃ msg, GKEStartPodOperator.init location cluster_name use_internal_ip
      project_id gcp_conn_id impersonation_chain regional on_finish_action
      is_delete_operator_pod kwargs = Except.error msg) ∧
    (∀ g, gcp_conn_id = some g →
      exOk (resolve_on_finish_action is_delete_operator_pod on_finish_action) = true →
      GKEStartPodOperator.init location cluster_name use_internal_ip
        project_id gcp_conn_id impersonation_chain regional on_finish_action
        is_delete_operator_pod kwargs =
        Except.error "config_file is not an allowed parameter for the GKEStartPodOperator.") := by
  constructor
  · cases ha : resolve_on_finish_action is_delete_operator_pod on_finish_action with
    | error e =>
        exact ⟨e, by simp [GKEStartPodOperator.init, ha]⟩
    | ok a =>
        cases gcp_conn_id with
        | none =>
            exact ⟨"The gcp_conn_id parameter has become required.",
              by simp [GKEStartPodOperator.init, ha]⟩
        | some g =>
            exact ⟨"config_file is not an allowed parameter for the GKEStartPodOperator.",
              by simp [GKEStartPodOperator.init, ha, hcf]⟩
  · intro g hg hok
    subst hg
    cases ha : resolve_on_finish_action is_delete_operator_pod on_finish_action with
    | error e => rw [ha] at hok; simp [exOk] at hok
    | ok a => simp [GKEStartPodOperator.init, ha, hcf]

/-- Witness for C7: a nonempty config_file path fails construction with the
config_file message. -/
theorem config_file_forbidden_at_construction_w :
    GKEStartPodOperator.init "loc" "c" false (some "p") (some "gcp") none
      none none none { config_file := some "/tmp/kubeconfig" } =
      Except.error "config_file is not an allowed parameter for the GKEStartPodOperator." :=
  (config_file_forbidden_at_construction "loc" "c" false (some "p")
    (some "gcp") none none none none { config_file := some "/tmp/kubeconfig" }
    (by decide)).2 "gcp" rfl (by decide)

/-- Claim C8 counterexample: a construction supplying both the deprecated
alias and the new parameter is accepted, not rejected: with
is_delete_operator_pod false and on_finish_action delete_pod, construction
succeeds and resolves to keep_pod (the new parameter is ignored). -/
theorem ambiguous_alias_accepted_not_rejected :
    exOk (GKEStartPodOperator.init "loc" "c" false none (some "gcp") none
      none (some "delete_pod") (some false) {}) = true ∧
    resolvedAction (GKEStartPodOperator.init "loc" "c" false none
      (some "gcp") none none (some "delete_pod") (some false) {}) =
      some OnFinishAction.keep_pod := by
  constructor <;> rfl

/-- Claim C8 (amended): the deprecated alias is resolved once at
construction into the canonical on_finish_action field: alias true maps to
delete_pod and alias false to keep_pod, in both cases even when the new
parameter is also supplied (the ambiguous combination is accepted with the
alias taking precedence and the new parameter ignored, not rejected);
with no alias a valid on_finish_action string maps to its enum value and
neither parameter maps to keep_pod. -/
theorem on_finish_action_alias_resolution (location cluster_name : String)
    (use_internal_ip : Bool) (project_id : Option String) (g : String)
    (impersonation_chain : Option String) (regional : Option Bool)
    ( on_finish_action : Option String) (kwargs : KubernetesPodOperatorArgs)
    (hcf : truthyStr kwargs.config_file = false) :
    resolvedAction (GKEStartPodOperator.init location cluster_name
        use_internal_ip project_id (some g) impersonation_chain regional
        on_finish_action (some true) kwargs) =
      some OnFinishAction.delete_pod ∧
    resolvedAction (GKEStartPodOperator.init location cluster_name
        use_internal_ip project_id (some g) impersonation_chain regional
        on_finish_action (some false) kwargs) =
      some OnFinishAction.keep_pod ∧
    resolvedAction (GKEStartPodOperator.init location cluster_name
        use_internal_ip project_id (some g) impersonation_chain regional
        none none kwargs) =
      some OnFinishAction.keep_pod ∧
    (∀ s a, OnFinishAction.ofString s = some a →
      resolvedAction (GKEStartPodOperator.init location cluster_name
          use_internal_ip project_id (some g) impersonation_chain regional
          (some s) none kwargs) = some a) := by
  refine ⟨?_, ?_, ?_, ?_⟩
  · simp [GKEStartPodOperator.init, resolve_on_finish_action, resolvedAction, hcf]
  · simp [GKEStartPodOperator.init, resolve_on_finish_action, resolvedAction, hcf]
  · simp [GKEStartPodOperator.init, resolve_on_finish_action, resolvedAction, hcf]
  · intro s a hs
    simp [GKEStartPodOperator.init, resolve_on_finish_action, resolvedAction,
          hcf, hs]

/-- Witness for C8 (amended) at concrete arguments. -/
theorem on_finish_action_alias_resolution_w :
    resolvedAction (GKEStartPodOperator.init "loc" "c" false none
        (some "gcp") none none (some "keep_pod") (some true) {}) =
      some OnFinishAction.delete_pod ∧
    resolvedAction (GKEStartPodOperator.init "loc" "c" false none
        (some "gcp") none none (some "keep_pod") (some false) {}) =
      some OnFinishAction.keep_pod ∧
    resolvedAction (GKEStartPodOperator.init "loc" "c" false none
        (some "gcp") none none none none {}) =
      some OnFinishAction.keep_pod ∧
    resolvedAction (GKEStartPodOperator.init "loc" "c" false none
        (some "gcp") none none (some "delete_succeeded_pod") none {}) =
      some OnFinishAction.delete_succeeded_pod := by
  have h := on_finish_action_alias_resolution "loc" "c" false none "gcp"
    none none (some "keep_pod") {} (by decide)
  exact ⟨h.1, h.2.1, h.2.2.1,
    h.2.2.2 "delete_succeeded_pod" OnFinishAction.delete_succeeded_pod
      (by decide)⟩

/-- Claim C9: constructing the delete operator fails with the missing-input
error exactly unless project_id, name and location are all truthy; since
project_id defaults to None, constructing without a project_id fails for
every choice of the other arguments. -/
theorem delete_operator_requires_project_name_location
    (name location : String) (project_id : Option String)
    (gcp_conn_id api_version : String) (impersonation_chain : Option String)
    (deferrable : Bool) (poll_interval : Nat) :
    exOk (GKEDeleteClusterOperator.init name location project_id gcp_conn_id
        api_version impersonation_chain deferrable poll_interval) =
      (truthyStr project_id && !name.isEmpty && !location.isEmpty) ∧
    GKEDeleteClusterOperator.init name location none gcp_conn_id api_version
        impersonation_chain deferrable poll_interval =
      Except.error "Operator has incorrect or missing input." := by
  constructor
  · unfold GKEDeleteClusterOperator.init GKEDeleteClusterOperator.check_input
    cases h : (truthyStr project_id && !name.isEmpty && !location.isEmpty) <;>
      simp [h, exOk]
  · simp [GKEDeleteClusterOperator.init,
          GKEDeleteClusterOperator.check_input, truthyStr]

/-- Claim C10: the hook raises whenever the cluster url or the CA
certificate is unset; after fetch_cluster_info both are set, so the execute
path has a working hook; and a resume built from a deferral record of any
state with both values set restores them through the kwargs, so the resumed
hook also works: a session is never constructed from incomplete connection
info. -/
theorem hook_requires_cluster_connection_info (op op2 : GKEStartPodOperator)
    (cp : ControlPlane) (t : Nat) :
    (op.cluster_url = none ∨ op.ssl_ca_cert = none →
      ∃ e, op.hook = Except.error e) ∧
    ((op.fetch_cluster_info cp).1.1.cluster_url.isSome = true ∧
     (op.fetch_cluster_info cp).1.1.ssl_ca_cert.isSome = true) ∧
    exOk ((op.execute cp).1.hook) = true ∧
    (∀ s rec, s.cluster_url.isSome = true → s.ssl_ca_cert.isSome = true →
      GKEStartPodOperator.invoke_defer_method s t = some rec →
      exOk ((op2.execute_complete rec.kwargs_cluster_url
        rec.kwargs_ssl_ca_cert).1.hook) = true) := by
  refine ⟨?_, ⟨rfl, rfl⟩, ?_, ?_⟩
  · intro h
    cases hc : op.cluster_url with
    | none =>
        refine ⟨"Cluster url and ssl_ca_cert should be defined before using self.hook method. Try to use self.get_kube_creds method", ?_⟩
        cases hs : op.ssl_ca_cert <;> simp [GKEStartPodOperator.hook, hc, hs]
    | some u =>
        cases hs : op.ssl_ca_cert with
        | none =>
            refine ⟨"Cluster url and ssl_ca_cert should be defined before using self.hook method. Try to use self.get_kube_creds method", ?_⟩
            simp [GKEStartPodOperator.hook, hc, hs]
        | some c => simp_all
  · simp [GKEStartPodOperator.execute, GKEStartPodOperator.fetch_cluster_info,
          GKEStartPodOperator.hook, exOk]
  · intro s rec h1 h2 hdef
    cases hp : s.pod with
    | none => simp [GKEStartPodOperator.invoke_defer_method, hp] at hdef
    | some p =>
        cases hc : s.cluster_url with
        | none => rw [hc] at h1; simp at h1
        | some u =>
            cases hs : s.ssl_ca_cert with
            | none => rw [hs] at h2; simp at h2
            | some c =>
                simp [GKEStartPodOperator.invoke_defer_method, hp, hc, hs]
                  at hdef
                subst hdef
                simp [GKEStartPodOperator.execute_complete,
                      GKEStartPodOperator.hook, exOk, rebuild_pod_session]

/-- Witness for C10: an unset sample state has no hook; the execute path
has a working hook; and resuming on a fresh instance from the deferral
record of the fetched sample state rebuilds a working hook. -/
theorem hook_requires_cluster_connection_info_w :
    (∃ e, samplePodOp.hook = Except.error e) ∧
    exOk ((samplePodOp.execute sampleCP).1.hook) = true ∧
    exOk ((samplePodOp.execute_complete (some "https://1.2.3.4")
      (some "CERT")).1.hook) = true := by
  have h := hook_requires_cluster_connection_info samplePodOp samplePodOp
    sampleCP 0
  refine ⟨h.1 (Or.inl rfl), h.2.2.1, ?_⟩
  have hr := h.2.2.2 samplePodOpFetched
    { pod_name := "pod", pod_namespace := "ns", trigger_start_time := 0,
      trigger_cluster_url := some "https://1.2.3.4",
      trigger_ssl_ca_cert := some "CERT", trigger_get_logs := true,
      trigger_on_finish_action := OnFinishAction.keep_pod,
      method_name := "execute_complete",
      kwargs_cluster_url := some "https://1.2.3.4",
      kwargs_ssl_ca_cert := some "CERT" } rfl rfl rfl
  simpa using hr

end GKE
